import Mathlib

/-!
Verification of the realtime synchronization core of the collaborative
whiteboard repository: the Socket.IO handshake middleware and message
handlers of the API server, and the client-side socket manager and
remote-cursor sweep. Each definition is a shallow embedding of the
corresponding source function; theorems settle the spec's claims.
-/

namespace Whiteboard

/-- Socket identifiers are opaque strings (socket.id in the source). -/
abbrev SocketId := String

/-- JS truthiness for an optional string field: undefined and the empty
string are falsy; a non-empty string is truthy and yields its value. -/
def truthy (s : Option String) : Option String :=
  match s with
  | some v => if v = "" then none else some v
  | none => none

/-- JS template-literal rendering of a possibly-undefined string
(undefined interpolates as the text "undefined"). -/
def jsStr (s : Option String) : String := s.getD "undefined"

/-- The inner `event` object of a legacy canvas-event message:
it has a `type` field; the rest of the object is opaque. -/
structure CanvasEvent where
  type : String
  body : String
deriving Repr, DecidableEq

/-- An inbound client message body. Handlers destructure `boardId`,
`pageId`, `event`, `x`, `y`; any remaining fields are opaque (`rest`).
Fields a given message does not carry are `none`. -/
structure Data where
  boardId : Option String := none
  pageId : Option String := none
  event : Option CanvasEvent := none
  x : Option Int := none
  y : Option Int := none
  rest : String := ""
deriving Repr, DecidableEq

/-- Payload stored in a boardEvent row: shape handlers store the whole
incoming `data`, the legacy handler stores the inner `event` object. -/
inductive StoredPayload where
  | whole (d : Data)
  | inner (e : CanvasEvent)
deriving Repr, DecidableEq

/-- A row of the board_events table as created by the handlers. -/
structure StoredEvent where
  boardId : String
  pageId : Option String
  type : String
  payload : StoredPayload
deriving Repr, DecidableEq

/-- Payload of an outbound emission: shape/settings/asset handlers
forward the incoming data unchanged; the presence handler spreads in
the sender's socket id and user name; the legacy handler forwards only
the inner event object. -/
inductive OutPayload where
  | raw (d : Data)
  | withPresence (d : Data) (socketId : SocketId) (userName : Option String)
  | innerEvent (e : CanvasEvent)
deriving Repr, DecidableEq

/-- Observable actions of a handler, in execution order: an error
emission to one socket, a database append, a delivery to one room
member, or a room membership operation. -/
inductive Effect where
  | emitError (target : SocketId) (message : String)
  | persist (ev : StoredEvent)
  | deliver (target : SocketId) (event : String) (payload : OutPayload)
  | roomLeave (sid : SocketId) (room : String)
  | roomJoin (sid : SocketId) (room : String)
deriving Repr, DecidableEq

def Effect.isPersist : Effect → Bool
  | .persist _ => true
  | _ => false

def Effect.isDeliver : Effect → Bool
  | .deliver _ _ _ => true
  | _ => false

def Effect.isErrorEmit : Effect → Bool
  | .emitError _ _ => true
  | _ => false

def Effect.isRoomJoin : Effect → Bool
  | .roomJoin _ _ => true
  | _ => false

def Effect.isRoomOp : Effect → Bool
  | .roomJoin _ _ => true
  | .roomLeave _ _ => true
  | _ => false

/-- The per-connection `socket.data` record set by the middleware. -/
structure SocketData where
  userId : Option String
  boardId : String
  pageId : Option String
  canEdit : Bool
  userName : Option String
deriving Repr, DecidableEq

/-- Room membership map: room key (board:<id> / page:<id>) to members. -/
abbrev Rooms := List (String × List SocketId)

def roomMembers (rooms : Rooms) (room : String) : List SocketId :=
  match rooms.find? (fun r => r.1 = room) with
  | some r => r.2
  | none => []

/-- socket.join: idempotent addition of a socket to a room. -/
def joinRoom (rooms : Rooms) (room : String) (sid : SocketId) : Rooms :=
  match rooms with
  | [] => [(room, [sid])]
  | (r, ms) :: rest =>
    if r = room then (r, if ms.contains sid then ms else ms ++ [sid]) :: rest
    else (r, ms) :: joinRoom rest room sid

/-- socket.leave: removal of a socket from a room. -/
def leaveRoom (rooms : Rooms) (room : String) (sid : SocketId) : Rooms :=
  rooms.map (fun r => if r.1 = room then (r.1, r.2.filter (fun m => m ≠ sid)) else r)

/-- socket.to(room).emit(event, payload): one delivery to every member
of the room at call time except the sender. -/
def broadcastTo (rooms : Rooms) (room : String) (sender : SocketId)
    (event : String) (payload : OutPayload) : List Effect :=
  ((roomMembers rooms room).filter (fun m => m ≠ sender)).map
    (fun m => Effect.deliver m event payload)

/-- Server-side state touched by the handlers: the room membership map,
the board_events table (append-only), and each socket's data record. -/
structure ServerState where
  rooms : Rooms
  events : List StoredEvent
  conns : List (SocketId × SocketData)
deriving Repr, DecidableEq

def getConn (st : ServerState) (sid : SocketId) : Option SocketData :=
  (st.conns.find? (fun c => c.1 = sid)).map Prod.snd

def setConn (st : ServerState) (sid : SocketId) (sd : SocketData) : ServerState :=
  { st with conns := st.conns.map (fun c => if c.1 = sid then (sid, sd) else c) }

/-- prisma.boardEvent.create: requires a boardId value; the append may
also fail externally (connectivity, constraint violations), which the
`persistOk` flag models. `none` means the awaited create threw. -/
def tryPersist (persistOk : Bool) (boardId : Option String) (pageId : Option String)
    (type : String) (payload : StoredPayload) : Option StoredEvent :=
  match boardId with
  | none => none
  | some b => if persistOk then some ⟨b, pageId, type, payload⟩ else none

/-- handleShapeEvent(eventName, data): permission check, page-id check,
then create the boardEvent row and broadcast to the page room named by
the message. A throw from the awaited create is unhandled: nothing
after it runs and nothing is emitted. -/
def handleShapeEvent (st : ServerState) (sid : SocketId) (sd : SocketData)
    (eventName : String) (d : Data) (persistOk : Bool) : ServerState × List Effect :=
  if !sd.canEdit then
    (st, [.emitError sid "Edit permission denied"])
  else
    match truthy d.pageId with
    | none => (st, [.emitError sid "Page ID required"])
    | some pid =>
      match tryPersist persistOk d.boardId (some pid) eventName (.whole d) with
      | none => (st, [])
      | some ev =>
        ({ st with events := st.events ++ [ev] },
         .persist ev :: broadcastTo st.rooms ("page:" ++ pid) sid eventName (.raw d))

/-- socket.on('page:switch'): reject if the message's boardId differs
from the connection's bound board; otherwise leave the old page room if
one is held, record the new page id, and join its room. -/
def pageSwitchHandler (st : ServerState) (sid : SocketId) (sd : SocketData)
    (d : Data) : ServerState × List Effect :=
  if d.boardId ≠ some sd.boardId then
    (st, [.emitError sid "Access denied"])
  else
    let leavePart :=
      match truthy sd.pageId with
      | some old => (leaveRoom st.rooms ("page:" ++ old) sid,
                     [Effect.roomLeave sid ("page:" ++ old)])
      | none => (st.rooms, [])
    let newRoom := "page:" ++ jsStr d.pageId
    let sd' := { sd with pageId := d.pageId }
    ({ setConn st sid sd' with rooms := joinRoom leavePart.1 newRoom sid },
     leavePart.2 ++ [Effect.roomJoin sid newRoom])

/-- socket.on('presence:cursor'): skip silently without a page id,
else broadcast the cursor (with socketId and userName spread in) to
the page room. No permission check, no persistence. -/
def presenceCursorHandler (st : ServerState) (sid : SocketId) (sd : SocketData)
    (d : Data) : ServerState × List Effect :=
  match truthy d.pageId with
  | none => (st, [])
  | some pid =>
    (st, broadcastTo st.rooms ("page:" ++ pid) sid "presence:cursor"
          (.withPresence d sid sd.userName))

/-- socket.on('page:settings:update'): permission check, page-id check,
then broadcast to the page room. No persistence. -/
def pageSettingsHandler (st : ServerState) (sid : SocketId) (sd : SocketData)
    (d : Data) : ServerState × List Effect :=
  if !sd.canEdit then
    (st, [.emitError sid "Edit permission denied"])
  else
    match truthy d.pageId with
    | none => (st, [.emitError sid "Page ID required"])
    | some pid =>
      (st, broadcastTo st.rooms ("page:" ++ pid) sid "page:settings:update" (.raw d))

/-- socket.on('asset:add'): permission check, then broadcast to the
board room named by the message. No persistence step exists. -/
def assetAddHandler (st : ServerState) (sid : SocketId) (sd : SocketData)
    (d : Data) : ServerState × List Effect :=
  if !sd.canEdit then
    (st, [.emitError sid "Edit permission denied"])
  else
    (st, broadcastTo st.rooms ("board:" ++ jsStr d.boardId) sid "asset:add" (.raw d))

/-- socket.on('canvas-event') (legacy): permission check, then create a
boardEvent row from the inner event (pageId coerced to null when falsy)
and broadcast the inner event to the page room when a page id is
present, else to the board room. A missing inner event or a throwing
create aborts the async handler with nothing emitted. -/
def canvasEventHandler (st : ServerState) (sid : SocketId) (sd : SocketData)
    (d : Data) (persistOk : Bool) : ServerState × List Effect :=
  if !sd.canEdit then
    (st, [.emitError sid "Edit permission denied"])
  else
    match d.event with
    | none => (st, [])
    | some ev =>
      match tryPersist persistOk d.boardId (truthy d.pageId) ev.type (.inner ev) with
      | none => (st, [])
      | some se =>
        let room :=
          match truthy d.pageId with
          | some pid => "page:" ++ pid
          | none => "board:" ++ jsStr d.boardId
        ({ st with events := st.events ++ [se] },
         .persist se :: broadcastTo st.rooms room sid "canvas-event" (.innerEvent ev))

/-- The inbound socket messages the server registers handlers for. -/
inductive InMessage where
  | pageSwitch (d : Data)
  | shapeAdd (d : Data)
  | shapeUpdate (d : Data)
  | shapeDelete (d : Data)
  | presenceCursor (d : Data)
  | pageSettingsUpdate (d : Data)
  | assetAdd (d : Data)
  | canvasEvent (d : Data)
  | disconnect
deriving Repr, DecidableEq

/-- The six mutation handlers guarded by the canEdit check. -/
def InMessage.isGuardedMutation : InMessage → Bool
  | .shapeAdd _ | .shapeUpdate _ | .shapeDelete _ => true
  | .pageSettingsUpdate _ | .assetAdd _ | .canvasEvent _ => true
  | _ => false

/-- Dispatch one inbound message on a connected socket: look up the
socket's data record and run the registered handler. The disconnect
handler only logs. -/
def dispatch (st : ServerState) (sid : SocketId) (msg : InMessage) (persistOk : Bool) :
    ServerState × List Effect :=
  match getConn st sid with
  | none => (st, [])
  | some sd =>
    match msg with
    | .pageSwitch d => pageSwitchHandler st sid sd d
    | .shapeAdd d => handleShapeEvent st sid sd "shape:add" d persistOk
    | .shapeUpdate d => handleShapeEvent st sid sd "shape:update" d persistOk
    | .shapeDelete d => handleShapeEvent st sid sd "shape:delete" d persistOk
    | .presenceCursor d => presenceCursorHandler st sid sd d
    | .pageSettingsUpdate d => pageSettingsHandler st sid sd d
    | .assetAdd d => assetAddHandler st sid sd d
    | .canvasEvent d => canvasEventHandler st sid sd d persistOk
    | .disconnect => (st, [])

/-! ### Handshake middleware (io.use) -/

/-- A user row (name is nullable). -/
structure User where
  id : String
  email : String
  name : Option String
deriving Repr, DecidableEq

/-- A membership row as included under its board. -/
structure Membership where
  userId : String
  boardId : String
  role : String
deriving Repr, DecidableEq

/-- A board row with its included membership rows. -/
structure Board where
  id : String
  ownerId : String
  memberships : List Membership
deriving Repr, DecidableEq

/-- A share-link row. -/
structure ShareLink where
  token : String
  boardId : String
  canEdit : Bool
deriving Repr, DecidableEq

/-- The database tables the middleware reads. -/
structure Db where
  users : List User
  boards : List Board
  shareLinks : List ShareLink
deriving Repr, DecidableEq

/-- socket.handshake.auth as read by the middleware. -/
structure HandshakeAuth where
  token : Option String := none
  shareToken : Option String := none
  boardId : Option String := none
  pageId : Option String := none
deriving Repr, DecidableEq

/-- Outcome of the middleware: next(Error) with a message, or
acceptance with the socket.data record set and the rooms joined. -/
inductive HandshakeResult where
  | rejected (err : String)
  | accepted (d : SocketData) (joins : List String)
deriving Repr, DecidableEq

/-- Rooms joined on acceptance: the board room always, the page room
only when a page id was supplied. -/
def handshakeJoins (boardId : String) (pageId : Option String) : List String :=
  ("board:" ++ boardId) ::
    (match truthy pageId with
     | some p => ["page:" ++ p]
     | none => [])

/-- The io.use middleware. `jwtVerify` models jwt.verify against the
server secret: `some userId` for a token that verifies, `none` for one
that throws (the catch turns the throw into "Authentication failed").
The bearer branch is taken whenever a token is supplied; the share
token is only consulted when no bearer token is present. -/
def authenticate (db : Db) (jwtVerify : String → Option String) (a : HandshakeAuth) :
    HandshakeResult :=
  match truthy a.boardId with
  | none => .rejected "Board ID required"
  | some boardId =>
    match truthy a.token with
    | some token =>
      match jwtVerify token with
      | none => .rejected "Authentication failed"
      | some decodedUserId =>
        match db.users.find? (fun u => u.id = decodedUserId) with
        | none => .rejected "User not found"
        | some user =>
          match db.boards.find? (fun b => b.id = boardId) with
          | none => .rejected "Board not found"
          | some board =>
            let isOwner := board.ownerId == user.id
            let membershipRole :=
              (board.memberships.find? (fun m => m.userId = user.id)).map
                (fun m => m.role)
            let canEdit := isOwner || membershipRole == some "OWNER" ||
              membershipRole == some "EDITOR"
            .accepted
              { userId := some user.id, boardId := boardId, pageId := a.pageId,
                canEdit := canEdit,
                userName := some ((truthy user.name).getD user.email) }
              (handshakeJoins boardId a.pageId)
    | none =>
      match truthy a.shareToken with
      | some st =>
        match db.shareLinks.find? (fun l => l.token = st) with
        | none => .rejected "Invalid share token"
        | some link =>
          if link.boardId ≠ boardId then .rejected "Invalid share token"
          else
            .accepted
              { userId := none, boardId := boardId, pageId := a.pageId,
                canEdit := link.canEdit, userName := some "Anonymous User" }
              (handshakeJoins boardId a.pageId)
      | none => .rejected "Authentication required"

/-! ### Client SocketManager (web/lib/socket.ts) -/

/-- Client-side SocketManager state: whether a socket object is held
and the tracked current page id. -/
structure ClientState where
  hasSocket : Bool
  currentPageId : Option String
deriving Repr, DecidableEq

/-- The page:switch message the client emits. -/
structure PageSwitchMsg where
  boardId : String
  pageId : String
deriving Repr, DecidableEq

/-- SocketManager.switchPage: emit page:switch and update the tracked
page id only when a socket is held and the target differs from the
tracked page id. -/
def switchPage (c : ClientState) (boardId pageId : String) :
    ClientState × List PageSwitchMsg :=
  if c.hasSocket && c.currentPageId ≠ some pageId then
    ({ c with currentPageId := some pageId }, [⟨boardId, pageId⟩])
  else
    (c, [])

/-- The wire form of a client page:switch message. -/
def pageSwitchData (m : PageSwitchMsg) : Data :=
  { boardId := some m.boardId, pageId := some m.pageId }

/-- Result of one client switchPage call composed with the server's
processing of whatever it emitted. -/
structure RoundResult where
  client : ClientState
  server : ServerState
  effects : List Effect
deriving Repr, DecidableEq

/-- One switchPage call on the client followed by the server
dispatching each emitted page:switch message in order. -/
def switchPageRound (c : ClientState) (st : ServerState) (sid : SocketId)
    (boardId pageId : String) : RoundResult :=
  let step := switchPage c boardId pageId
  let out := step.2.foldl
    (fun (acc : ServerState × List Effect) m =>
      let r := dispatch acc.1 sid (.pageSwitch (pageSwitchData m)) true
      (r.1, acc.2 ++ r.2))
    (st, ([] : List Effect))
  ⟨step.1, out.1, out.2⟩

/-! ### Client remote-cursor map and periodic sweep (CanvasPage.tsx) -/

/-- A remote cursor entry: fabric objects (dot, optional label) plus
the last-seen timestamp in milliseconds. -/
structure RemoteCursor where
  lastSeen : Nat
  hasLabel : Bool
deriving Repr, DecidableEq

/-- Observable client actions: removing a fabric object from the local
canvas, or emitting a socket message to the server. The sweep performs
only local removals. -/
inductive ClientEffect where
  | removeCanvasObject (owner : SocketId) (kind : String)
  | socketEmit (event : String)
deriving Repr, DecidableEq

def ClientEffect.isCanvasRemove : ClientEffect → Bool
  | .removeCanvasObject _ _ => true
  | _ => false

def ClientEffect.isSocketEmit : ClientEffect → Bool
  | .socketEmit _ => true
  | _ => false

/-- Staleness threshold of the cursor cleanup interval (3000 ms). -/
def staleThreshold : Nat := 3000

/-- Sweep interval of the cursor cleanup (1000 ms). -/
def sweepIntervalMs : Nat := 1000

/-- One tick of the cursor-cleanup interval: every entry whose age
exceeds staleThreshold has its fabric objects removed from the canvas
and is deleted from the map. Nothing is sent over the socket. -/
def cursorSweep (cursors : List (SocketId × RemoteCursor)) (now : Nat) :
    List (SocketId × RemoteCursor) × List ClientEffect :=
  match cursors with
  | [] => ([], [])
  | (sid, c) :: rest =>
    let r := cursorSweep rest now
    if now - c.lastSeen > staleThreshold then
      (r.1, ClientEffect.removeCanvasObject sid "dot" ::
        ((if c.hasLabel then [ClientEffect.removeCanvasObject sid "label"] else []) ++ r.2))
    else
      ((sid, c) :: r.1, r.2)

/-! ### Trace predicates -/

/-- True when no persist effect occurs after any delivery in the trace:
every persisted event is durable before any peer is sent a message. -/
def persistPrecedesDeliveries : List Effect → Bool
  | [] => true
  | Effect.deliver _ _ _ :: rest =>
      rest.all (fun e => !e.isPersist) && persistPrecedesDeliveries rest
  | _ :: rest => persistPrecedesDeliveries rest

/-- The sockets a trace delivers messages to, in order. -/
def deliveryTargets : List Effect → List SocketId
  | [] => []
  | Effect.deliver t _ _ :: rest => t :: deliveryTargets rest
  | _ :: rest => deliveryTargets rest

/-! ### Concrete example data -/

/-- Editor connection data: u1 with edit rights on board b1, page p1. -/
def sdA : SocketData :=
  { userId := some "u1", boardId := "b1", pageId := some "p1",
    canEdit := true, userName := some "alice" }

/-- Viewer connection data: u2 without edit rights on board b1. -/
def sdZ : SocketData :=
  { userId := some "u2", boardId := "b1", pageId := some "p1",
    canEdit := false, userName := some "zoe" }

/-- Two sockets a (editor) and z (viewer) in board b1's rooms. -/
def stE : ServerState :=
  { rooms := [("board:b1", ["a", "z"]), ("page:p1", ["a", "z"])],
    events := [], conns := [("a", sdA), ("z", sdZ)] }

/-- A shape message body on board b1, page p1. -/
def dShape : Data := { boardId := some "b1", pageId := some "p1", rest := "rect" }

/-- A shape message body naming board b9, different from the sender's
bound board b1. -/
def dShapeOtherBoard : Data :=
  { boardId := some "b9", pageId := some "p1", rest := "rect" }

/-- An asset message body on board b1. -/
def dAsset : Data := { boardId := some "b1", rest := "asset" }

/-- A single remote-cursor entry last seen at t=0, holding a label. -/
def staleCursors : List (SocketId × RemoteCursor) := [("s1", ⟨0, true⟩)]

/-- User u1. -/
def userU1 : User := { id := "u1", email := "u1@example.com", name := some "Uma" }

/-- Board b1, owned by u1, no membership rows. -/
def boardB1 : Board := { id := "b1", ownerId := "u1", memberships := [] }

/-- Board b2, owned by u9, one membership row for u3 only. -/
def boardB2 : Board :=
  { id := "b2", ownerId := "u9", memberships := [⟨"u3", "b2", "EDITOR"⟩] }

/-- Database with u1, boards b1 and b2, and one share link for b1. -/
def dbE : Db :=
  { users := [userU1], boards := [boardB1, boardB2],
    shareLinks := [⟨"sh1", "b1", true⟩] }

/-- jwt.verify model: tok1 decodes to user id u1, all else throws. -/
def verifyT : String → Option String :=
  fun s => if s = "tok1" then some "u1" else none

/-- Handshake supplying both a bearer token and a share token. -/
def authBoth : HandshakeAuth :=
  { token := some "tok1", shareToken := some "sh1",
    boardId := some "b1", pageId := some "p1" }

/-- Bearer handshake for board b2, where u1 has no membership row. -/
def authNoMembership : HandshakeAuth :=
  { token := some "tok1", boardId := some "b2", pageId := some "p2" }

/-- A freshly constructed client SocketManager holding a socket. -/
def c0 : ClientState := { hasSocket := true, currentPageId := none }

/-! ## Helper lemmas -/

/-- A trace consisting only of deliveries satisfies the
persist-before-deliver discipline. -/
theorem ppd_deliver_map (ms : List SocketId) (en : String) (pl : OutPayload) :
    persistPrecedesDeliveries (ms.map (fun m => Effect.deliver m en pl)) = true := by
  induction ms with
  | nil => rfl
  | cons m rest ih =>
    simp [persistPrecedesDeliveries, ih, List.all_map, Effect.isPersist, Function.comp]

/-- Every trace of handleShapeEvent keeps all persist effects before
all delivery effects. -/
theorem ppd_handleShapeEvent (st : ServerState) (sid : SocketId) (sd : SocketData)
    (en : String) (d : Data) (pOk : Bool) :
    persistPrecedesDeliveries (handleShapeEvent st sid sd en d pOk).2 = true := by
  unfold handleShapeEvent
  by_cases he : sd.canEdit
  · cases ht : truthy d.pageId with
    | none => simp [he, ht, persistPrecedesDeliveries]
    | some pid =>
      cases hp : tryPersist pOk d.boardId (some pid) en (.whole d) with
      | none => simp [he, ht, hp, persistPrecedesDeliveries]
      | some ev =>
        simp [he, ht, hp, persistPrecedesDeliveries, broadcastTo, ppd_deliver_map]
  · simp [he, persistPrecedesDeliveries]

/-- A failing store appends nothing, whatever the row contents. -/
theorem tryPersist_false (b : Option String) (pg : Option String)
    (t : String) (pl : StoredPayload) : tryPersist false b pg t pl = none := by
  cases b <;> rfl

/-- A broadcast delivers to exactly the room's members at call time,
minus the excluded sender. -/
theorem deliveryTargets_broadcastTo (rooms : Rooms) (room : String) (s : SocketId)
    (en : String) (pl : OutPayload) :
    deliveryTargets (broadcastTo rooms room s en pl) =
      (roomMembers rooms room).filter (fun m => m ≠ s) := by
  unfold broadcastTo
  generalize (roomMembers rooms room).filter (fun m => m ≠ s) = ms
  induction ms with
  | nil => rfl
  | cons m rest ih => simp [deliveryTargets, ih]

/-- The excluded sender is never among a broadcast's targets. -/
theorem sender_not_in_broadcast (rooms : Rooms) (room : String) (en : String)
    (pl : OutPayload) (s : SocketId) :
    s ∉ deliveryTargets (broadcastTo rooms room s en pl) := by
  rw [deliveryTargets_broadcastTo]
  intro hmem
  have := List.mem_filter.mp hmem
  simp at this

/-- handleShapeEvent never delivers to the sender. -/
theorem not_target_handleShapeEvent (st : ServerState) (sid : SocketId)
    (sd : SocketData) (en : String) (d : Data) (pOk : Bool) :
    sid ∉ deliveryTargets (handleShapeEvent st sid sd en d pOk).2 := by
  unfold handleShapeEvent
  by_cases he : sd.canEdit
  · cases ht : truthy d.pageId with
    | none => simp [he, ht, deliveryTargets]
    | some pid =>
      cases hp : tryPersist pOk d.boardId (some pid) en (.whole d) with
      | none => simp [he, ht, hp, deliveryTargets]
      | some ev =>
        simp only [he, ht, hp]
        simp only [Bool.not_true, Bool.false_eq_true, if_false]
        show sid ∉ deliveryTargets (Effect.persist ev ::
          broadcastTo st.rooms ("page:" ++ pid) sid en (OutPayload.raw d))
        rw [show deliveryTargets (Effect.persist ev ::
            broadcastTo st.rooms ("page:" ++ pid) sid en (.raw d)) =
          deliveryTargets (broadcastTo st.rooms ("page:" ++ pid) sid en (.raw d)) from rfl]
        exact sender_not_in_broadcast st.rooms ("page:" ++ pid) en (.raw d) sid
  · simp [he, deliveryTargets]

/-! ## Claims -/

/-- C1: for every connection whose resolved canEdit is false, each of
the six mutation handlers (shape:add, shape:update, shape:delete,
page:settings:update, asset:add, canvas-event) emits exactly one error
to the sender, leaves the server state unchanged (so no Event is
persisted), and delivers nothing to any room. -/
theorem C1_readonly_mutation_error_only
    (st : ServerState) (sid : SocketId) (sd : SocketData) (msg : InMessage) (persistOk : Bool)
    (hconn : getConn st sid = some sd) (hedit : sd.canEdit = false)
    (hmut : msg.isGuardedMutation = true) :
    dispatch st sid msg persistOk = (st, [Effect.emitError sid "Edit permission denied"]) := by
  cases msg <;>
    simp_all [dispatch, InMessage.isGuardedMutation, handleShapeEvent,
      pageSettingsHandler, assetAddHandler, canvasEventHandler]

/-- C1 witness: the read-only viewer z sending shape:add gets only the
permission error and nothing changes. -/
theorem C1_readonly_mutation_error_only_witness :
    getConn stE "z" = some sdZ ∧ sdZ.canEdit = false ∧
      (InMessage.shapeAdd dShape).isGuardedMutation = true ∧
      dispatch stE "z" (.shapeAdd dShape) true =
        (stE, [Effect.emitError "z" "Edit permission denied"]) :=
  ⟨by decide, by decide, by decide,
   C1_readonly_mutation_error_only stE "z" sdZ (.shapeAdd dShape) true
     (by decide) (by decide) (by decide)⟩

/-- C2: an accepted shape mutation persists the Event under the
message's own boardId and pageId and broadcasts to the page room named
by the message, even when that boardId differs from the connection's
bound board; no error is emitted and no rejection occurs. -/
theorem C2_mutation_trusts_message_board_page
    (st : ServerState) (sid : SocketId) (sd : SocketData) (d : Data)
    (msg : InMessage) (en : String) (b p : String)
    (hconn : getConn st sid = some sd) (hedit : sd.canEdit = true)
    (hb : d.boardId = some b) (hp : truthy d.pageId = some p)
    (hdiff : b ≠ sd.boardId)
    (hmsg : (msg = .shapeAdd d ∧ en = "shape:add") ∨
            (msg = .shapeUpdate d ∧ en = "shape:update") ∨
            (msg = .shapeDelete d ∧ en = "shape:delete")) :
    dispatch st sid msg true =
      ({ st with events := st.events ++ [⟨b, some p, en, .whole d⟩] },
       Effect.persist ⟨b, some p, en, .whole d⟩ ::
         broadcastTo st.rooms ("page:" ++ p) sid en (.raw d)) := by
  rcases hmsg with ⟨rfl, rfl⟩ | ⟨rfl, rfl⟩ | ⟨rfl, rfl⟩ <;>
    simp [dispatch, hconn, handleShapeEvent, hedit, hp, tryPersist, hb]

/-- C2 witness: editor a on board b1 sends a shape:add naming board b9;
the Event is persisted under b9 and broadcast to page p1's room. -/
theorem C2_mutation_trusts_message_board_page_witness :
    getConn stE "a" = some sdA ∧ sdA.canEdit = true ∧
    dShapeOtherBoard.boardId = some "b9" ∧
    truthy dShapeOtherBoard.pageId = some "p1" ∧
    "b9" ≠ sdA.boardId ∧
    dispatch stE "a" (.shapeAdd dShapeOtherBoard) true =
      ({ stE with events :=
          stE.events ++ [⟨"b9", some "p1", "shape:add", .whole dShapeOtherBoard⟩] },
       Effect.persist ⟨"b9", some "p1", "shape:add", .whole dShapeOtherBoard⟩ ::
         broadcastTo stE.rooms ("page:" ++ "p1") "a" "shape:add" (.raw dShapeOtherBoard)) :=
  ⟨by decide, rfl, rfl, rfl, by decide,
   C2_mutation_trusts_message_board_page stE "a" sdA dShapeOtherBoard
     (.shapeAdd dShapeOtherBoard) "shape:add" "b9" "p1"
     (by decide) rfl rfl rfl (by decide) (Or.inl ⟨rfl, rfl⟩)⟩

/-- C3: in every trace of the three page-scoped shape handlers, every
persist effect precedes every delivery effect: no peer is sent the
mutation before the event-store append has completed. -/
theorem C3_persist_precedes_broadcast
    (st : ServerState) (sid : SocketId) (d : Data) (persistOk : Bool) :
    persistPrecedesDeliveries (dispatch st sid (.shapeAdd d) persistOk).2 = true ∧
    persistPrecedesDeliveries (dispatch st sid (.shapeUpdate d) persistOk).2 = true ∧
    persistPrecedesDeliveries (dispatch st sid (.shapeDelete d) persistOk).2 = true := by
  unfold dispatch
  cases hg : getConn st sid with
  | none => exact ⟨rfl, rfl, rfl⟩
  | some sd =>
    exact ⟨ppd_handleShapeEvent st sid sd "shape:add" d persistOk,
           ppd_handleShapeEvent st sid sd "shape:update" d persistOk,
           ppd_handleShapeEvent st sid sd "shape:delete" d persistOk⟩

/-- C4 counterexample: editor a's shape:add hits a failing store; the
handler emits nothing at all to the sender (the claimed
PersistenceFailure error does not exist) and changes nothing. -/
theorem C4_persistence_failure_counterexample :
    sdA.canEdit = true ∧ getConn stE "a" = some sdA ∧
    dispatch stE "a" (.shapeAdd dShape) false = (stE, []) ∧
    ((dispatch stE "a" (.shapeAdd dShape) false).2.filter Effect.isErrorEmit) = [] := by
  refine ⟨rfl, by decide, by decide, by decide⟩

/-- C4 amended: when the persistence step of a shape mutation fails,
the handler performs no broadcast and appends no Event, but it also
emits no error to the sender - the rejection is swallowed unhandled
and the trace is empty. -/
theorem C4_persistence_failure_silent
    (st : ServerState) (sid : SocketId) (sd : SocketData) (d : Data)
    (msg : InMessage) (p : String)
    (hconn : getConn st sid = some sd) (hedit : sd.canEdit = true)
    (hp : truthy d.pageId = some p)
    (hmsg : msg = .shapeAdd d ∨ msg = .shapeUpdate d ∨ msg = .shapeDelete d) :
    dispatch st sid msg false = (st, []) := by
  rcases hmsg with rfl | rfl | rfl <;>
    simp [dispatch, hconn, handleShapeEvent, hedit, hp, tryPersist_false]

/-- C4 witness: the silent-failure theorem at the concrete editor. -/
theorem C4_persistence_failure_silent_witness :
    getConn stE "a" = some sdA ∧ sdA.canEdit = true ∧
    truthy dShape.pageId = some "p1" ∧
    dispatch stE "a" (.shapeAdd dShape) false = (stE, []) :=
  ⟨by decide, rfl, rfl,
   C4_persistence_failure_silent stE "a" sdA dShape (.shapeAdd dShape) "p1"
     (by decide) rfl rfl (Or.inl rfl)⟩

/-- C5 counterexample: a stale cursor entry is removed by the sweep,
but the sweep's trace holds zero socket emissions - not the one
removal notification the claim requires; it only removes the local
canvas objects. -/
theorem C5_sweep_counterexample :
    (cursorSweep staleCursors 5000).1 = [] ∧
    ((cursorSweep staleCursors 5000).2.filter ClientEffect.isSocketEmit).length = 0 ∧
    (cursorSweep staleCursors 5000).2 =
      [ClientEffect.removeCanvasObject "s1" "dot",
       ClientEffect.removeCanvasObject "s1" "label"] := by
  refine ⟨rfl, rfl, rfl⟩

/-- C5 amended: the periodic client-side sweep removes exactly the
entries whose age exceeds the 3000 ms staleness threshold, and its
whole trace consists of local canvas removals - no removal
notification is broadcast anywhere. -/
theorem C5_sweep_local_removal
    (cursors : List (SocketId × RemoteCursor)) (now : Nat) :
    (cursorSweep cursors now).1 =
      cursors.filter (fun e => !decide (now - e.2.lastSeen > staleThreshold)) ∧
    (cursorSweep cursors now).2.all ClientEffect.isCanvasRemove = true := by
  induction cursors with
  | nil => exact ⟨rfl, rfl⟩
  | cons e rest ih =>
    obtain ⟨sid, c⟩ := e
    obtain ⟨ih1, ih2⟩ := ih
    by_cases h : now - c.lastSeen > staleThreshold
    · have hd : (!decide (now - c.lastSeen > staleThreshold)) = false := by
        rw [decide_eq_true h]; rfl
      constructor
      · rw [show (cursorSweep ((sid, c) :: rest) now).1 = (cursorSweep rest now).1 by
          simp only [cursorSweep]; rw [if_pos h]]
        rw [List.filter_cons, hd, ih1]
        simp
      · cases hl : c.hasLabel <;>
          · rw [show (cursorSweep ((sid, c) :: rest) now).2 =
                ClientEffect.removeCanvasObject sid "dot" ::
                  ((if c.hasLabel then [ClientEffect.removeCanvasObject sid "label"]
                    else []) ++ (cursorSweep rest now).2) by
              simp only [cursorSweep]; rw [if_pos h]]
            simp [hl, ClientEffect.isCanvasRemove, List.all_append, ih2]
    · have hd : (!decide (now - c.lastSeen > staleThreshold)) = true := by
        rw [decide_eq_false h]; rfl
      have hsw : cursorSweep ((sid, c) :: rest) now =
          ((sid, c) :: (cursorSweep rest now).1, (cursorSweep rest now).2) := by
        simp only [cursorSweep]; rw [if_neg h]
      constructor
      · rw [hsw, List.filter_cons, hd, ih1]; rfl
      · rw [hsw]; exact ih2

/-- C6 counterexample: editor a's asset:add leaves the event table
empty and its trace has no persist effect - the claimed Event is never
persisted - while the broadcast to the board room does happen. -/
theorem C6_assetAdd_counterexample :
    sdA.canEdit = true ∧
    (dispatch stE "a" (.assetAdd dAsset) true).1.events = [] ∧
    ((dispatch stE "a" (.assetAdd dAsset) true).2.filter Effect.isPersist) = [] ∧
    (dispatch stE "a" (.assetAdd dAsset) true).2 =
      [Effect.deliver "z" "asset:add" (.raw dAsset)] := by
  refine ⟨rfl, by decide, by decide, by decide⟩

/-- C6 amended: asset:add from a connection with canEdit=true only
broadcasts the payload to the board room named by the message,
excluding the sender; it persists no Event and leaves the server state
unchanged. -/
theorem C6_assetAdd_broadcast_only
    (st : ServerState) (sid : SocketId) (sd : SocketData) (d : Data) (persistOk : Bool)
    (hconn : getConn st sid = some sd) (hedit : sd.canEdit = true) :
    dispatch st sid (.assetAdd d) persistOk =
      (st, broadcastTo st.rooms ("board:" ++ jsStr d.boardId) sid "asset:add" (.raw d)) := by
  simp [dispatch, hconn, assetAddHandler, hedit]

/-- C6 witness: the broadcast-only theorem at the concrete editor. -/
theorem C6_assetAdd_broadcast_only_witness :
    getConn stE "a" = some sdA ∧ sdA.canEdit = true ∧
    dispatch stE "a" (.assetAdd dAsset) true =
      (stE, broadcastTo stE.rooms ("board:" ++ jsStr dAsset.boardId) "a"
        "asset:add" (.raw dAsset)) :=
  ⟨by decide, rfl,
   C6_assetAdd_broadcast_only stE "a" sdA dAsset true (by decide) rfl⟩

/-- C7: calling the client's switchPage twice in a row with the same
target performs the room-membership mutation only in the first call -
exactly one join of the target page room in total - and the second
call is a complete no-op: no message, no effects, client and server
state (room memberships and tracked page id) unchanged. -/
theorem C7_switchPage_second_call_noop
    (c : ClientState) (st : ServerState) (sid : SocketId) (sd : SocketData) (b p : String)
    (hsock : c.hasSocket = true) (hne : c.currentPageId ≠ some p)
    (hconn : getConn st sid = some sd) (hb : sd.boardId = b) :
    switchPageRound (switchPageRound c st sid b p).client
        (switchPageRound c st sid b p).server sid b p =
      ⟨(switchPageRound c st sid b p).client, (switchPageRound c st sid b p).server, []⟩ ∧
    ((switchPageRound c st sid b p).effects.filter Effect.isRoomJoin) =
      [Effect.roomJoin sid ("page:" ++ p)] ∧
    (switchPageRound c st sid b p).client.currentPageId = some p := by
  subst hb
  have h1 : switchPage c sd.boardId p =
      ({ c with currentPageId := some p }, [⟨sd.boardId, p⟩]) := by
    simp [switchPage, hsock, hne]
  have h2 : switchPage { c with currentPageId := some p } sd.boardId p =
      ({ c with currentPageId := some p }, []) := by
    simp [switchPage]
  cases hpd : truthy sd.pageId with
  | none =>
    have hd : dispatch st sid (.pageSwitch (pageSwitchData ⟨sd.boardId, p⟩)) true =
        ({ setConn st sid { sd with pageId := some p } with
            rooms := joinRoom st.rooms ("page:" ++ p) sid },
         [Effect.roomJoin sid ("page:" ++ p)]) := by
      simp [dispatch, hconn, pageSwitchHandler, pageSwitchData, hpd, jsStr]
    have hr1 : switchPageRound c st sid sd.boardId p =
        ⟨{ c with currentPageId := some p },
          { setConn st sid { sd with pageId := some p } with
              rooms := joinRoom st.rooms ("page:" ++ p) sid },
          [Effect.roomJoin sid ("page:" ++ p)]⟩ := by
      simp [switchPageRound, h1, hd]
    refine ⟨?_, ?_, ?_⟩
    · rw [hr1]
      simp [switchPageRound, h2]
    · rw [hr1]; rfl
    · rw [hr1]
  | some old =>
    have hd : dispatch st sid (.pageSwitch (pageSwitchData ⟨sd.boardId, p⟩)) true =
        ({ setConn st sid { sd with pageId := some p } with
            rooms := joinRoom (leaveRoom st.rooms ("page:" ++ old) sid)
              ("page:" ++ p) sid },
         [Effect.roomLeave sid ("page:" ++ old),
          Effect.roomJoin sid ("page:" ++ p)]) := by
      simp [dispatch, hconn, pageSwitchHandler, pageSwitchData, hpd, jsStr]
    have hr1 : switchPageRound c st sid sd.boardId p =
        ⟨{ c with currentPageId := some p },
          { setConn st sid { sd with pageId := some p } with
              rooms := joinRoom (leaveRoom st.rooms ("page:" ++ old) sid)
                ("page:" ++ p) sid },
          [Effect.roomLeave sid ("page:" ++ old),
           Effect.roomJoin sid ("page:" ++ p)]⟩ := by
      simp [switchPageRound, h1, hd]
    refine ⟨?_, ?_, ?_⟩
    · rw [hr1]
      simp [switchPageRound, h2]
    · rw [hr1]; rfl
    · rw [hr1]

/-- C7 witness: a fresh client switching twice to page p2 on board b1
through socket a. -/
theorem C7_switchPage_second_call_noop_witness :
    c0.hasSocket = true ∧ c0.currentPageId ≠ some "p2" ∧
    getConn stE "a" = some sdA ∧ sdA.boardId = "b1" ∧
    (switchPageRound (switchPageRound c0 stE "a" "b1" "p2").client
        (switchPageRound c0 stE "a" "b1" "p2").server "a" "b1" "p2" =
      ⟨(switchPageRound c0 stE "a" "b1" "p2").client,
       (switchPageRound c0 stE "a" "b1" "p2").server, []⟩ ∧
     ((switchPageRound c0 stE "a" "b1" "p2").effects.filter Effect.isRoomJoin) =
       [Effect.roomJoin "a" ("page:" ++ "p2")] ∧
     (switchPageRound c0 stE "a" "b1" "p2").client.currentPageId = some "p2") :=
  ⟨rfl, by decide, by decide, rfl,
   C7_switchPage_second_call_noop c0 stE "a" sdA "b1" "p2"
     rfl (by decide) (by decide) rfl⟩

/-- C8: no dispatch ever delivers a message to the originating
connection, and a broadcast's targets are exactly the room's
registered members at the moment of the call minus the sender - no
late joiner, no already-departed member. -/
theorem C8_broadcast_excludes_sender_exact_room
    (st : ServerState) (sid : SocketId) (msg : InMessage) (persistOk : Bool)
    (rooms : Rooms) (room : String) (s : SocketId) (en : String) (pl : OutPayload) :
    sid ∉ deliveryTargets (dispatch st sid msg persistOk).2 ∧
    deliveryTargets (broadcastTo rooms room s en pl) =
      (roomMembers rooms room).filter (fun m => m ≠ s) := by
  refine ⟨?_, deliveryTargets_broadcastTo rooms room s en pl⟩
  unfold dispatch
  cases hg : getConn st sid with
  | none => simp [deliveryTargets]
  | some sd =>
    cases msg with
    | pageSwitch d =>
      unfold pageSwitchHandler
      by_cases hbd : d.boardId ≠ some sd.boardId
      · simp [hbd, deliveryTargets]
      · cases hpd : truthy sd.pageId <;> simp [hbd, hpd, deliveryTargets]
    | shapeAdd d => exact not_target_handleShapeEvent st sid sd "shape:add" d persistOk
    | shapeUpdate d => exact not_target_handleShapeEvent st sid sd "shape:update" d persistOk
    | shapeDelete d => exact not_target_handleShapeEvent st sid sd "shape:delete" d persistOk
    | presenceCursor d =>
      unfold presenceCursorHandler
      cases ht : truthy d.pageId with
      | none => simp [ht, deliveryTargets]
      | some pid =>
        simp only [ht]
        exact sender_not_in_broadcast st.rooms ("page:" ++ pid) "presence:cursor"
          (.withPresence d sid sd.userName) sid
    | pageSettingsUpdate d =>
      unfold pageSettingsHandler
      by_cases he : sd.canEdit
      · cases ht : truthy d.pageId with
        | none => simp [he, ht, deliveryTargets]
        | some pid =>
          simp only [he, ht, Bool.not_true, Bool.false_eq_true, if_false]
          exact sender_not_in_broadcast st.rooms ("page:" ++ pid) "page:settings:update"
            (.raw d) sid
      · simp [he, deliveryTargets]
    | assetAdd d =>
      unfold assetAddHandler
      by_cases he : sd.canEdit
      · simp only [he, Bool.not_true, Bool.false_eq_true, if_false]
        exact sender_not_in_broadcast st.rooms ("board:" ++ jsStr d.boardId) "asset:add"
          (.raw d) sid
      · simp [he, deliveryTargets]
    | canvasEvent d =>
      unfold canvasEventHandler
      by_cases he : sd.canEdit
      · cases hev : d.event with
        | none => simp [he, hev, deliveryTargets]
        | some ev =>
          cases hp : tryPersist persistOk d.boardId (truthy d.pageId) ev.type (.inner ev) with
          | none => simp [he, hev, hp, deliveryTargets]
          | some se =>
            simp only [he, hev, hp, Bool.not_true, Bool.false_eq_true, if_false]
            cases hpg : truthy d.pageId with
            | none =>
              show sid ∉ deliveryTargets (Effect.persist se ::
                broadcastTo st.rooms ("board:" ++ jsStr d.boardId) sid "canvas-event"
                  (OutPayload.innerEvent ev))
              rw [show ∀ l, deliveryTargets (Effect.persist se :: l) =
                  deliveryTargets l from fun _ => rfl]
              exact sender_not_in_broadcast st.rooms ("board:" ++ jsStr d.boardId)
                "canvas-event" (.innerEvent ev) sid
            | some pid =>
              show sid ∉ deliveryTargets (Effect.persist se ::
                broadcastTo st.rooms ("page:" ++ pid) sid "canvas-event"
                  (OutPayload.innerEvent ev))
              rw [show ∀ l, deliveryTargets (Effect.persist se :: l) =
                  deliveryTargets l from fun _ => rfl]
              exact sender_not_in_broadcast st.rooms ("page:" ++ pid)
                "canvas-event" (.innerEvent ev) sid
      · simp [he, deliveryTargets]
    | disconnect => simp [deliveryTargets]

/-- C9: a bearer handshake with a verifying token, an existing user
and an existing board, but no membership row for that user, is not
rejected: it is accepted with canEdit equal to ownership alone, and
the connection joins the board room. -/
theorem C9_no_membership_handshake_accepted
    (db : Db) (jwtVerify : String → Option String) (a : HandshakeAuth)
    (bid tok uid : String) (u : User) (board : Board)
    (hb : truthy a.boardId = some bid)
    (ht : truthy a.token = some tok)
    (hv : jwtVerify tok = some uid)
    (hu : db.users.find? (fun x => x.id = uid) = some u)
    (hbd : db.boards.find? (fun x => x.id = bid) = some board)
    (hm : board.memberships.find? (fun m => m.userId = u.id) = none) :
    authenticate db jwtVerify a =
      .accepted
        { userId := some u.id, boardId := bid, pageId := a.pageId,
          canEdit := board.ownerId == u.id,
          userName := some ((truthy u.name).getD u.email) }
        (handshakeJoins bid a.pageId) := by
  simp [authenticate, hb, ht, hv, hu, hbd, hm]

/-- C9 witness: u1 joins board b2 (owned by u9, no membership row for
u1); the handshake is accepted with canEdit=false and the board room
is joined. -/
theorem C9_no_membership_handshake_accepted_witness :
    truthy authNoMembership.boardId = some "b2" ∧
    truthy authNoMembership.token = some "tok1" ∧
    verifyT "tok1" = some "u1" ∧
    dbE.users.find? (fun x => x.id = "u1") = some userU1 ∧
    dbE.boards.find? (fun x => x.id = "b2") = some boardB2 ∧
    boardB2.memberships.find? (fun m => m.userId = userU1.id) = none ∧
    authenticate dbE verifyT authNoMembership =
      .accepted
        { userId := some userU1.id, boardId := "b2", pageId := authNoMembership.pageId,
          canEdit := boardB2.ownerId == userU1.id,
          userName := some ((truthy userU1.name).getD userU1.email) }
        (handshakeJoins "b2" authNoMembership.pageId) :=
  ⟨rfl, rfl, rfl, by decide, by decide, by decide,
   C9_no_membership_handshake_accepted dbE verifyT authNoMembership "b2" "tok1" "u1"
     userU1 boardB2 rfl rfl rfl (by decide) (by decide) (by decide)⟩

/-- C10: when a bearer token is supplied, the handshake outcome is
identical whether or not a share token is also supplied: the bearer
path alone decides, the share token is ignored, and supplying both is
not itself a rejection. -/
theorem C10_share_token_ignored_with_bearer
    (db : Db) (jwtVerify : String → Option String) (a : HandshakeAuth) (tok : String)
    (ht : truthy a.token = some tok) :
    authenticate db jwtVerify a =
      authenticate db jwtVerify { a with shareToken := none } := by
  cases hbid : truthy a.boardId <;> simp [authenticate, ht, hbid]

/-- C10 witness: a handshake supplying both tok1 and share token sh1
resolves exactly as the same handshake without the share token. -/
theorem C10_share_token_ignored_with_bearer_witness :
    truthy authBoth.token = some "tok1" ∧
    authenticate dbE verifyT authBoth =
      authenticate dbE verifyT { authBoth with shareToken := none } :=
  ⟨rfl, C10_share_token_ignored_with_bearer dbE verifyT authBoth "tok1" rfl⟩

end Whiteboard
